import Mathlib

/-!
# Verification of the SIC component manager core

Shallow embedding of `sic_framework/core/component_manager_python2.py`:
the component manager (`SICComponentManager`) and its singleton variant
(`SICSensorManager`), together with the message types they exchange.

Modelling conventions:
* Python exceptions are values of `PyExc`; a function that can raise
  returns `Except PyExc _`.  An `Except.error` escaping a definition
  models an uncaught exception propagating out of the corresponding
  Python function.
* `threading.Event` objects are booleans (`false` = not set).  A bounded
  `Event.wait(timeout)` is modelled by its observable outcome: whether
  the event was set by the time the wait returned.
* Component classes are external collaborators (they live outside this
  core); their behaviour relevant to the manager — output-channel
  computation, whether the constructor raises, whether launching the
  thread raises, and whether the ready event is set within the startup
  timeout — is a parameter of the model (`ComponentClass`).
* Python dictionaries are association lists with first-match lookup and
  in-place replacement on duplicate insert (`dictGet`/`dictInsert`).
* For the singleton manager, Python object identity of reply objects
  matters (the source stores a reply object in a cache and hands out
  `copy.copy`ies of it), so reply objects live in an explicit `Heap`
  addressed by allocation order; `Heap.alloc` models object creation
  (and `copy.copy`), `Heap.set` models attribute mutation on an object.
* `print`/logger output is accumulated in a `log` field; the exact text
  is abbreviated but the presence of each message is faithful.
-/

set_option autoImplicit false

/-- A Python exception object: its type name and its `message` attribute.
Python 2 exception objects always carry a `message` attribute; most other
exception objects (in particular standard exceptions on modern runtimes)
do not, in which case reading `err.message` raises `AttributeError`. -/
structure PyExc where
  excName : String
  msg : Option String
deriving DecidableEq, Repr, Inhabited

/-- The `AttributeError` raised by reading a missing `message` attribute. -/
def attributeError : PyExc :=
  { excName := "AttributeError", msg := none }

/-- The `KeyError` raised by indexing a dict with an absent key. -/
def keyError : PyExc :=
  { excName := "KeyError", msg := none }

/-! ## Python dictionaries as association lists -/

/-- `d[k]` lookup: first binding of `k`. -/
def dictGet {α : Type} (d : List (String × α)) (k : String) : Option α :=
  match d with
  | [] => none
  | (k', v) :: rest => if k' = k then some v else dictGet rest k

/-- `k in d` membership test. -/
def dictContains {α : Type} (d : List (String × α)) (k : String) : Bool :=
  (dictGet d k).isSome

/-- `d[k] = v` assignment: replace the first binding of `k`, or append. -/
def dictInsert {α : Type} (d : List (String × α)) (k : String) (v : α) :
    List (String × α) :=
  match d with
  | [] => [(k, v)]
  | (k', v') :: rest =>
      if k' = k then (k', v) :: rest else (k', v') :: dictInsert rest k v

/-! ## Message types (`message_python2` collaborators and this file's classes) -/

/-- The kind (Python class) of a reply message. -/
inductive ReplyKind
  | success      -- SICSuccessMessage
  | ignore       -- SICIgnoreRequestMessage
  | started      -- SICStartedComponentInformation
  | notStarted   -- SICNotStartedMessage
deriving DecidableEq, Repr, Inhabited

/-- A reply object: its class together with the attributes the manager
code reads or writes.  `output_channel` is only populated on
`SICStartedComponentInformation`, `message` only on
`SICNotStartedMessage`; `component_is_singleton` is the class attribute
defaulting to `False`, and `_request_id` is the per-request correlation
identifier the transport later writes onto a reply object. -/
structure ReplyObj where
  kind : ReplyKind := .success
  output_channel : Option String := none
  message : Option PyExc := none
  component_is_singleton : Bool := false
  _request_id : Option Nat := none
deriving DecidableEq, Repr, Inhabited

/-- `SICSuccessMessage()`. -/
def SICSuccessMessage : ReplyObj := { kind := .success }

/-- `SICIgnoreRequestMessage()`. -/
def SICIgnoreRequestMessage : ReplyObj := { kind := .ignore }

/-- `SICStartedComponentInformation(output_channel)`. -/
def SICStartedComponentInformation (output_channel : String) : ReplyObj :=
  { kind := .started, output_channel := some output_channel }

/-- `SICNotStartedMessage(e)`. -/
def SICNotStartedMessage (e : PyExc) : ReplyObj :=
  { kind := .notStarted, message := some e }

/-- `SICStartComponentRequest(component_name, log_level, conf)`. -/
structure SICStartComponentRequest where
  component_name : String
  log_level : Nat
  conf : Option String
deriving DecidableEq, Repr

/-- A request delivered to the manager's request handler: either a
`SICStopRequest` or a `SICStartComponentRequest`. -/
inductive Request
  | stopRequest
  | startRequest (r : SICStartComponentRequest)
deriving DecidableEq, Repr

/-! ## Component classes and runtime instances -/

/-- A component class registered with the manager.  The class itself is
external code; this records its name and the behaviour the manager
observes from it. -/
structure ComponentClass where
  /-- `cls.get_component_name()`. -/
  name : String
  /-- `cls.get_output_channel(ip)`; classmethod, may raise. -/
  get_output_channel : String → Except PyExc String
  /-- whether `cls(output_channel=..., stop_event=..., ...)` raises. -/
  construct : Except PyExc Unit
  /-- whether creating and starting the component thread raises. -/
  launch : Except PyExc Unit
  /-- whether the component sets its ready event within
  `COMPONENT_STARTUP_TIMEOUT` (the outcome of the bounded wait). -/
  readyInTime : Bool

/-- A running component instance held in `active_components`: the
events created for it by `start_component` and its routing data. -/
structure ComponentInstance where
  name : String
  output_channel : String
  _stop_event : Bool
  _ready_event : Bool
deriving DecidableEq, Repr, Inhabited

/-! ## Heap of reply objects (for the singleton manager) -/

/-- A heap of reply objects; an object identity is its index. -/
structure Heap where
  objs : List ReplyObj
deriving DecidableEq, Repr, Inhabited

/-- Allocate a new object (also models `copy.copy`): returns the new
heap and the fresh object identity. -/
def Heap.alloc (h : Heap) (r : ReplyObj) : Heap × Nat :=
  (⟨h.objs ++ [r]⟩, h.objs.length)

/-- Read an object. -/
def Heap.get (h : Heap) (i : Nat) : ReplyObj :=
  h.objs.getD i default

/-- Mutate an object in place (attribute assignment). -/
def Heap.set (h : Heap) (i : Nat) (r : ReplyObj) : Heap :=
  ⟨h.objs.set i r⟩

/-! ## Manager state -/

/-- The mutable state of a `SICComponentManager` (the fields of `self`
the request-handling and shutdown code touches; the redis connection is
a collaborator and appears only through the close outcome passed to
`shutdown`). -/
structure ManagerState where
  ip : String
  component_classes : List (String × ComponentClass)
  active_components : List ComponentInstance
  stop_event : Bool
  log : List String

namespace SICComponentManager

/-- `SICComponentManager.__init__`: build the registry by dict
comprehension over the class list (later duplicates overwrite), start
with no active components and the stop event not set. -/
def init (ip : String) (classes : List ComponentClass) : ManagerState :=
  { ip := ip
    component_classes := classes.foldl (fun d c => dictInsert d c.name c) []
    active_components := []
    stop_event := false
    log := [] }

/-- `SICComponentManager.start_component` (lines 144–188).

The registry lookup and the output-channel computation happen *before*
the `try:` block, so an exception from either propagates out of this
method (modelled by `Except.error`).  Inside the `try:`, construction
and launch failures are caught and turned into a `SICNotStartedMessage`;
after a successful launch the manager waits (bounded) on the ready
event, logs an error when it is not set in time, appends the instance
to `active_components` either way, and replies with
`SICStartedComponentInformation(output_channel)`. -/
def start_component (m : ManagerState) (req : SICStartComponentRequest) :
    Except PyExc (ManagerState × ReplyObj) :=
  match dictGet m.component_classes req.component_name with
  | none => .error keyError
  | some component_class =>
    match component_class.get_output_channel m.ip with
    | .error e => .error e
    | .ok output_channel =>
      -- try:
      match component_class.construct with
      | .error e => .ok (m, SICNotStartedMessage e)
      | .ok _ =>
        match component_class.launch with
        | .error e => .ok (m, SICNotStartedMessage e)
        | .ok _ =>
          -- component._ready_event.wait(component.COMPONENT_STARTUP_TIMEOUT)
          let ready := component_class.readyInTime
          let m1 :=
            if ready then m
            else { m with log := m.log ++
                    ["ERROR Component " ++ component_class.name ++
                     " refused to start within timeout"] }
          let inst : ComponentInstance :=
            { name := component_class.name
              output_channel := output_channel
              _stop_event := false
              _ready_event := ready }
          let m2 := { m1 with
                      active_components := m1.active_components ++ [inst] }
          .ok (m2, SICStartedComponentInformation output_channel)

/-- `SICComponentManager._handle_request` (lines 110–131): a stop
request sets the manager's stop event and is acknowledged with a
success message; a start request for a registered name is delegated to
`start_component`; any other start request is answered with an ignore
message. -/
def _handle_request (m : ManagerState) (req : Request) :
    Except PyExc (ManagerState × ReplyObj) :=
  match req with
  | .stopRequest =>
      .ok ({ m with stop_event := true }, SICSuccessMessage)
  | .startRequest r =>
      if dictContains m.component_classes r.component_name then
        start_component m r
      else
        .ok (m, SICIgnoreRequestMessage)

/-- `SICComponentManager.shutdown` (lines 190–198).  `closeRes` is the
outcome of `self.redis.close()`.  When closing succeeds, the loop sets
every active instance's stop event; when it raises, the loop is skipped
and the `except` handler formats `err.message` — which itself raises
`AttributeError` when the exception object has no `message` attribute,
and that error propagates out of `shutdown`. -/
def shutdown (m : ManagerState) (closeRes : Except PyExc Unit) :
    Except PyExc ManagerState :=
  match closeRes with
  | .ok _ =>
      .ok { m with
            active_components :=
              m.active_components.map (fun c => { c with _stop_event := true })
            log := m.log ++ ["Graceful exit was successful"] }
  | .error err =>
      match err.msg with
      | some s => .ok { m with log := m.log ++ ["Graceful exit has failed: " ++ s] }
      | none => .error attributeError

/-- One iteration of the `serve` wait loop (lines 83–93): the loop
breaks exactly when the stop event is observed set, after which `serve`
runs `shutdown` and returns; otherwise it keeps waiting (`none`). -/
def serve (m : ManagerState) (closeRes : Except PyExc Unit) :
    Option (Except PyExc ManagerState) :=
  if m.stop_event then some (shutdown m closeRes) else none

end SICComponentManager

namespace SICSensorManager

/-- `SICSensorManager.started_components` is a *class* attribute
(`started_components = dict()` at class scope, line 202), so every
`SICSensorManager` instance in the process reads and writes the same
dictionary; it is therefore modelled as a separate piece of state passed
alongside each instance's own `ManagerState`, shared by all instances.
It maps a component class name to the identity of the cached reply
object. -/
abbrev Cache : Type := List (String × Nat)

/-- `SICSensorManager.start_component` (lines 204–225).

Looks the class up in the instance's registry.  On a cache miss it logs,
delegates to the base `SICComponentManager.start_component` (whose
escaped exceptions propagate here too), sets
`reply.component_is_singleton = True` on whatever reply came back, and
stores that object in the class-level cache.  On a hit it logs and takes
the cached object.  Either way the caller receives `copy.copy(reply)` —
a freshly allocated object with the same attributes. -/
def start_component (m : ManagerState) (cache : Cache) (h : Heap)
    (req : SICStartComponentRequest) :
    Except PyExc (ManagerState × Cache × Heap × Nat) :=
  match dictGet m.component_classes req.component_name with
  | none => .error keyError
  | some component_class =>
    match dictGet cache component_class.name with
    | none =>
        -- if component_class.get_component_name() not in self.started_components:
        let m0 := { m with log := m.log ++
                     ["INFO Starting new component " ++ req.component_name] }
        match SICComponentManager.start_component m0 req with
        | .error e => .error e
        | .ok (m1, reply0) =>
            -- reply.component_is_singleton = True
            let reply1 := { reply0 with component_is_singleton := true }
            let (h1, rid) := h.alloc reply1
            let cache1 := dictInsert cache component_class.name rid
            -- return copy.copy(reply)
            let (h2, cid) := h1.alloc (h1.get rid)
            .ok (m1, cache1, h2, cid)
    | some rid =>
        let m0 := { m with log := m.log ++
                     ["INFO Reusing existing component " ++ component_class.name] }
        -- return copy.copy(reply)
        let (h1, cid) := h.alloc (h.get rid)
        .ok (m0, cache, h1, cid)

/-- The request handler of a `SICSensorManager` instance: it is the
inherited `SICComponentManager._handle_request`, dispatching through the
overridden `start_component`.  Replies are allocated in the heap so that
the requester receives an object identity. -/
def _handle_request (m : ManagerState) (cache : Cache) (h : Heap)
    (req : Request) : Except PyExc (ManagerState × Cache × Heap × Nat) :=
  match req with
  | .stopRequest =>
      let (h1, i) := h.alloc SICSuccessMessage
      .ok ({ m with stop_event := true }, cache, h1, i)
  | .startRequest r =>
      if dictContains m.component_classes r.component_name then
        start_component m cache h r
      else
        let (h1, i) := h.alloc SICIgnoreRequestMessage
        .ok (m, cache, h1, i)

end SICSensorManager

/-! ## Helper lemmas -/

/-- Looking a key up right after inserting it finds the inserted value. -/
theorem dictGet_dictInsert_self {α : Type} (d : List (String × α)) (k : String)
    (v : α) : dictGet (dictInsert d k v) k = some v := by
  induction d with
  | nil => simp [dictInsert, dictGet]
  | cons p rest ih =>
      by_cases hk : p.1 = k
      · simp [dictInsert, dictGet, hk]
      · simp [dictInsert, dictGet, hk, ih]

/-- Reading the freshly allocated object returns what was allocated. -/
theorem Heap.get_alloc_self (h : Heap) (r : ReplyObj) :
    (h.alloc r).1.get (h.alloc r).2 = r := by
  simp [Heap.alloc, Heap.get]

/-- Allocation does not change existing objects. -/
theorem Heap.get_alloc_lt (h : Heap) (r : ReplyObj) {i : Nat}
    (hi : i < h.objs.length) : (h.alloc r).1.get i = h.get i := by
  simp only [Heap.alloc, Heap.get]
  rw [List.getD_append _ _ _ _ hi]

/-- Mutating one object leaves every other object unchanged. -/
theorem Heap.get_set_ne (h : Heap) (r : ReplyObj) {i j : Nat} (hij : i ≠ j) :
    (h.set i r).get j = h.get j := by
  simp [Heap.set, Heap.get, List.getD_eq_getElem?_getD, List.getElem?_set_ne hij]

/-! ## Concrete fixtures -/

/-- A well-behaved component class named `echo`. -/
def echoClass : ComponentClass :=
  { name := "echo"
    get_output_channel := fun ip => .ok ("echo:" ++ ip)
    construct := .ok ()
    launch := .ok ()
    readyInTime := true }

/-- A component class whose `get_output_channel` classmethod raises. -/
def badChannelClass : ComponentClass :=
  { name := "cam"
    get_output_channel := fun _ => .error { excName := "RuntimeError", msg := some "no route" }
    construct := .ok ()
    launch := .ok ()
    readyInTime := true }

/-- A component class whose constructor raises. -/
def failCtorClass : ComponentClass :=
  { name := "mic"
    get_output_channel := fun ip => .ok ("mic:" ++ ip)
    construct := .error { excName := "RuntimeError", msg := some "boom" }
    launch := .ok ()
    readyInTime := true }

/-- A component class that launches but never signals readiness in time. -/
def slowClass : ComponentClass :=
  { name := "slow"
    get_output_channel := fun ip => .ok ("slow:" ++ ip)
    construct := .ok ()
    launch := .ok ()
    readyInTime := false }

/-- A manager registering the `echo` class on device 10.0.0.5. -/
def mgrEcho : ManagerState := SICComponentManager.init "10.0.0.5" [echoClass]

/-- A manager registering the class with the raising channel computation. -/
def mgrBadChannel : ManagerState :=
  SICComponentManager.init "10.0.0.5" [badChannelClass]

/-- A start request for `echo`. -/
def reqEcho : SICStartComponentRequest :=
  { component_name := "echo", log_level := 20, conf := none }

/-! ## C1 — one reply per request, no escaping exception -/

/-- C1 (counterexample): the claim states that a failure while computing
the output channel in `start_component` also yields a reply rather than
an escaped exception.  On the code this is false: the channel is
computed before the `try:` block, so a start request for the registered
name `cam`, whose class raises in `get_output_channel`, makes
`_handle_request` propagate the exception instead of returning any
reply. -/
theorem claim1_counterexample :
    SICComponentManager._handle_request mgrBadChannel
        (.startRequest { component_name := "cam", log_level := 20, conf := none }) =
      .error { excName := "RuntimeError", msg := some "no route" } := by
  rfl

/-- C1 (amended): handling a stop request, a start request for an
unregistered name, or a start request whose output-channel computation
succeeds produces exactly one typed reply, with every construction or
launch failure converted to a reply inside the handler; only a failure
raised while computing the output channel escapes `_handle_request`. -/
theorem claim1_one_reply_unless_channel_raises
    (m : ManagerState) (req : Request)
    (hch : ∀ r cc, req = .startRequest r →
        dictGet m.component_classes r.component_name = some cc →
        ∃ ch, cc.get_output_channel m.ip = .ok ch) :
    ∃ m' reply, SICComponentManager._handle_request m req = .ok (m', reply) := by
  cases req with
  | stopRequest => exact ⟨_, _, rfl⟩
  | startRequest r =>
      cases hcontains : dictContains m.component_classes r.component_name with
      | false =>
          refine ⟨m, SICIgnoreRequestMessage, ?_⟩
          simp [SICComponentManager._handle_request, hcontains]
      | true =>
          rcases Option.isSome_iff_exists.mp
            (by simpa [dictContains] using hcontains) with ⟨cc, hcc⟩
          rcases hch r cc rfl hcc with ⟨ch, hchOk⟩
          simp only [SICComponentManager._handle_request, hcontains, if_true]
          simp only [SICComponentManager.start_component, hcc, hchOk]
          cases hcons : cc.construct with
          | error e => exact ⟨_, _, rfl⟩
          | ok u =>
              cases hlaunch : cc.launch with
              | error e => exact ⟨_, _, rfl⟩
              | ok u' => exact ⟨_, _, rfl⟩

/-- C1 witness: the amended theorem applied to the `echo` manager and a
start request for `echo`. -/
theorem claim1_witness :
    ∃ m' reply, SICComponentManager._handle_request mgrEcho
        (.startRequest reqEcho) = .ok (m', reply) :=
  claim1_one_reply_unless_channel_raises mgrEcho (.startRequest reqEcho)
    (by
      intro r cc hr hcc
      cases hr
      have h0 : dictGet mgrEcho.component_classes reqEcho.component_name =
          some echoClass := rfl
      rw [h0] at hcc
      cases Option.some.inj hcc
      exact ⟨"echo:10.0.0.5", rfl⟩)

/-! ## C8 — stop request: serve exits and instances are signalled -/

/-- An instance that was launched and is running (stop event not set). -/
def busyInst : ComponentInstance :=
  { name := "echo", output_channel := "echo:10.0.0.5",
    _stop_event := false, _ready_event := true }

/-- A serving manager owning one active instance. -/
def mgrServing : ManagerState :=
  { ip := "10.0.0.5", component_classes := [],
    active_components := [busyInst], stop_event := false, log := [] }

/-- `mgrServing` after its stop event has been set by a stop request. -/
def mgrServingStopped : ManagerState := { mgrServing with stop_event := true }

/-- A close failure whose exception carries a `message` attribute. -/
def closeFailExc : PyExc :=
  { excName := "ConnectionError", msg := some "connection refused" }

/-- C8 (counterexample): the claim requires every previously active
instance to have its stop signal set after shutdown *on every shutdown
path, including when closing the bus connection fails*.  On the code
this is false: when `redis.close()` raises, the exception skips the
signalling loop, so serve returns with the active instance's stop event
still unset. -/
theorem claim8_counterexample :
    SICComponentManager.serve mgrServingStopped (.error closeFailExc) =
      some (.ok { mgrServingStopped with
                  log := ["Graceful exit has failed: connection refused"] }) ∧
    ({ mgrServingStopped with
       log := ["Graceful exit has failed: connection refused"] } :
        ManagerState).active_components = [busyInst] ∧
    busyInst._stop_event = false :=
  ⟨rfl, rfl, rfl⟩

/-- C8 (amended): after a stop request is handled the manager's stop
event is set and `serve` exits its wait loop and runs `shutdown`; when
closing the bus connection succeeds, every instance in the active list
has its stop event set afterwards; when closing fails (with a
reportable exception), the signalling loop is skipped and the active
list is returned exactly as it was, no stop event set by shutdown. -/
theorem claim8_stop_serve_shutdown
    (m m1 : ManagerState) (r : ReplyObj)
    (hstop : SICComponentManager._handle_request m .stopRequest = .ok (m1, r)) :
    m1.stop_event = true ∧
    (∀ closeRes, SICComponentManager.serve m1 closeRes =
        some (SICComponentManager.shutdown m1 closeRes)) ∧
    (∀ m2, SICComponentManager.shutdown m1 (.ok ()) = .ok m2 →
        (∀ c ∈ m2.active_components, c._stop_event = true) ∧
        m2.active_components.length = m1.active_components.length) ∧
    (∀ e s m2, e.msg = some s →
        SICComponentManager.shutdown m1 (.error e) = .ok m2 →
        m2.active_components = m1.active_components) := by
  simp only [SICComponentManager._handle_request, Except.ok.injEq,
    Prod.mk.injEq] at hstop
  obtain ⟨hm1, -⟩ := hstop
  subst hm1
  refine ⟨rfl, ?_, ?_, ?_⟩
  · intro closeRes
    simp [SICComponentManager.serve]
  · intro m2 hm2
    simp only [SICComponentManager.shutdown, Except.ok.injEq] at hm2
    subst hm2
    constructor
    · intro c hc
      rcases List.mem_map.mp hc with ⟨a, -, rfl⟩
      rfl
    · simp
  · intro e s m2 hmsg hm2
    simp only [SICComponentManager.shutdown, hmsg, Except.ok.injEq] at hm2
    subst hm2
    rfl

/-- C8 witness: the amended theorem on `mgrServing`. -/
theorem claim8_witness :
    mgrServingStopped.stop_event = true ∧
    (∀ closeRes, SICComponentManager.serve mgrServingStopped closeRes =
        some (SICComponentManager.shutdown mgrServingStopped closeRes)) ∧
    (∀ m2, SICComponentManager.shutdown mgrServingStopped (.ok ()) = .ok m2 →
        (∀ c ∈ m2.active_components, c._stop_event = true) ∧
        m2.active_components.length =
          mgrServingStopped.active_components.length) ∧
    (∀ e s m2, e.msg = some s →
        SICComponentManager.shutdown mgrServingStopped (.error e) = .ok m2 →
        m2.active_components = mgrServingStopped.active_components) :=
  claim8_stop_serve_shutdown mgrServing mgrServingStopped SICSuccessMessage rfl

/-! ## C9 — shutdown failure handling -/

/-- A close failure whose exception object has no `message` attribute
(the usual situation for exception objects outside Python 2). -/
def closeFailNoMsg : PyExc := { excName := "ConnectionError", msg := none }

/-- C9 (counterexample): the claim states the error-reporting path never
raises regardless of the caught exception's type.  On the code this is
false: the `except` handler formats `err.message`, so catching an
exception object without a `message` attribute makes the reporting line
itself raise `AttributeError`, which propagates out of `shutdown`. -/
theorem claim9_counterexample :
    SICComponentManager.shutdown mgrServing (.error closeFailNoMsg) =
      .error attributeError :=
  rfl

/-- C9 (amended): every failure raised while closing the bus connection
is caught by `shutdown`'s handler and, whenever the caught exception
object carries a `message` attribute, the failure is reported on the
log and `shutdown` returns normally; only the reporting line's own
`err.message` access can escape, and only for an exception without that
attribute. -/
theorem claim9_shutdown_reports_and_swallows
    (m : ManagerState) (e : PyExc) (s : String) (hmsg : e.msg = some s) :
    SICComponentManager.shutdown m (.error e) =
      .ok { m with log := m.log ++ ["Graceful exit has failed: " ++ s] } := by
  simp [SICComponentManager.shutdown, hmsg]

/-- C9 witness: a close failure carrying a message is logged and
swallowed. -/
theorem claim9_witness :
    SICComponentManager.shutdown mgrServing (.error closeFailExc) =
      .ok { mgrServing with
            log := mgrServing.log ++
              ["Graceful exit has failed: " ++ "connection refused"] } :=
  claim9_shutdown_reports_and_swallows mgrServing closeFailExc
    "connection refused" rfl

/-! ## C10 — stop handling is frame-preserving -/

/-- C10: handling a stop request mutates nothing but the manager's stop
event — the active list (hence every component's own stop event), the
registry and, on a singleton manager, the class-level cache are
untouched, and shutdown of active instances is not performed by the
handler: it only happens later, when `serve` observes the stop event
and calls `shutdown`. -/
theorem claim10_stop_handler_frame
    (m : ManagerState) (cache : SICSensorManager.Cache) (h : Heap) :
    ∃ m1 h1 i,
      SICComponentManager._handle_request m .stopRequest =
        .ok (m1, SICSuccessMessage) ∧
      SICSensorManager._handle_request m cache h .stopRequest =
        .ok (m1, cache, h1, i) ∧
      m1.stop_event = true ∧
      m1.active_components = m.active_components ∧
      m1.component_classes = m.component_classes ∧
      m1.ip = m.ip ∧
      m1.log = m.log ∧
      (∀ closeRes, SICComponentManager.serve m1 closeRes =
          some (SICComponentManager.shutdown m1 closeRes)) := by
  refine ⟨{ m with stop_event := true }, (h.alloc SICSuccessMessage).1,
    (h.alloc SICSuccessMessage).2, rfl, rfl, rfl, rfl, rfl, rfl, rfl, ?_⟩
  intro closeRes
  simp [SICComponentManager.serve]

/-! ## C7 — output channel is a pure function of (name, address) -/

/-- The reply computed by `SICComponentManager.start_component`, as a
function of the resolved component class and the device address alone
(helper for stating determinism). -/
def startReply (cc : ComponentClass) (ip : String) : Except PyExc ReplyObj :=
  match cc.get_output_channel ip with
  | .error e => .error e
  | .ok output_channel =>
    match cc.construct with
    | .error e => .ok (SICNotStartedMessage e)
    | .ok _ =>
      match cc.launch with
      | .error e => .ok (SICNotStartedMessage e)
      | .ok _ => .ok (SICStartedComponentInformation output_channel)

/-- The reply of a successful `start_component` call depends only on
the resolved class and the device address. -/
theorem start_component_reply (m s : ManagerState)
    (req : SICStartComponentRequest) (cc : ComponentClass) (r : ReplyObj)
    (hreg : dictGet m.component_classes req.component_name = some cc)
    (h : SICComponentManager.start_component m req = .ok (s, r)) :
    startReply cc m.ip = .ok r := by
  cases hg : cc.get_output_channel m.ip with
  | error e => simp [SICComponentManager.start_component, hreg, hg] at h
  | ok ch =>
    cases hc : cc.construct with
    | error e =>
        simp [SICComponentManager.start_component, hreg, hg, hc] at h
        simp [startReply, hg, hc, h.2]
    | ok u =>
      cases hl : cc.launch with
      | error e =>
          simp [SICComponentManager.start_component, hreg, hg, hc, hl] at h
          simp [startReply, hg, hc, hl, h.2]
      | ok u' =>
          simp [SICComponentManager.start_component, hreg, hg, hc, hl] at h
          simp [startReply, hg, hc, hl, h.2]

/-- `start_component` never changes the device address or the registry. -/
theorem start_component_frame (m s : ManagerState)
    (req : SICStartComponentRequest) (r : ReplyObj)
    (h : SICComponentManager.start_component m req = .ok (s, r)) :
    s.ip = m.ip ∧ s.component_classes = m.component_classes := by
  cases hd : dictGet m.component_classes req.component_name with
  | none => simp [SICComponentManager.start_component, hd] at h
  | some cc =>
    cases hg : cc.get_output_channel m.ip with
    | error e => simp [SICComponentManager.start_component, hd, hg] at h
    | ok ch =>
      cases hc : cc.construct with
      | error e =>
          simp [SICComponentManager.start_component, hd, hg, hc] at h
          simp [← h.1]
      | ok u =>
        cases hl : cc.launch with
        | error e =>
            simp [SICComponentManager.start_component, hd, hg, hc, hl] at h
            simp [← h.1]
        | ok u' =>
            cases hready : cc.readyInTime with
            | false =>
                simp [SICComponentManager.start_component, hd, hg, hc, hl, hready] at h
                simp [← h.1]
            | true =>
                simp [SICComponentManager.start_component, hd, hg, hc, hl, hready] at h
                simp [← h.1]

/-- C7: for a registered component name resolving to class `cc` and a
device address, the reply of `start_component` — in particular its
`output_channel` — is the same across any two manager states sharing
that registry entry and address, independent of the rest of the manager
state; moreover a start call preserves the address and the registry, so
two sequential start requests on the same manager fall under this
statement. -/
theorem claim7_output_channel_pure_deterministic
    (m1 m2 s1 s2 : ManagerState) (req1 req2 : SICStartComponentRequest)
    (r1 r2 : ReplyObj) (cc : ComponentClass)
    (hreg1 : dictGet m1.component_classes req1.component_name = some cc)
    (hreg2 : dictGet m2.component_classes req2.component_name = some cc)
    (hip : m1.ip = m2.ip)
    (h1 : SICComponentManager.start_component m1 req1 = .ok (s1, r1))
    (h2 : SICComponentManager.start_component m2 req2 = .ok (s2, r2)) :
    r1.output_channel = r2.output_channel ∧
    s1.ip = m1.ip ∧ s1.component_classes = m1.component_classes := by
  have e1 := start_component_reply m1 s1 req1 cc r1 hreg1 h1
  have e2 := start_component_reply m2 s2 req2 cc r2 hreg2 h2
  rw [hip, e2] at e1
  rcases start_component_frame m1 s1 req1 r1 h1 with ⟨hf1, hf2⟩
  exact ⟨congrArg ReplyObj.output_channel (Except.ok.inj e1).symm, hf1, hf2⟩

/-- The state `mgrEcho` reaches after starting `echo`. -/
def echoInst : ComponentInstance :=
  { name := "echo", output_channel := "echo:10.0.0.5",
    _stop_event := false, _ready_event := true }

/-- A manager with the `echo` registry but different incidental state. -/
def mgrEchoBusy : ManagerState :=
  { mgrEcho with
    active_components := [{ name := "x", output_channel := "y",
                            _stop_event := true, _ready_event := true }]
    stop_event := true
    log := ["junk"] }

/-- Result state of starting `echo` on `mgrEcho`. -/
def mgrEchoAfter : ManagerState := { mgrEcho with active_components := [echoInst] }

/-- Result state of starting `echo` on `mgrEchoBusy`. -/
def mgrEchoBusyAfter : ManagerState :=
  { mgrEchoBusy with
    active_components := mgrEchoBusy.active_components ++ [echoInst] }

/-- The started reply for `echo` on device 10.0.0.5. -/
def replyEcho : ReplyObj := SICStartedComponentInformation "echo:10.0.0.5"

/-- C7 witness: starting `echo` on `mgrEcho` and on `mgrEchoBusy`
yields the same output channel. -/
theorem claim7_witness :
    replyEcho.output_channel = replyEcho.output_channel ∧
    mgrEchoAfter.ip = mgrEcho.ip ∧
    mgrEchoAfter.component_classes = mgrEcho.component_classes :=
  claim7_output_channel_pure_deterministic mgrEcho mgrEchoBusy
    mgrEchoAfter mgrEchoBusyAfter reqEcho reqEcho replyEcho replyEcho
    echoClass rfl rfl rfl rfl rfl

/-! ## C4 — readiness timeout: log an error, keep the instance, reply success -/

/-- C4: when construction and launch succeed but the ready event is not
set when the bounded wait elapses, `start_component` logs an error,
still appends the instance to `active_components`, and still returns
the success-form reply `SICStartedComponentInformation`. -/
theorem claim4_timeout_logged_instance_kept_reply_success
    (m : ManagerState) (req : SICStartComponentRequest) (cc : ComponentClass)
    (ch : String)
    (hreg : dictGet m.component_classes req.component_name = some cc)
    (hch : cc.get_output_channel m.ip = .ok ch)
    (hcons : cc.construct = .ok ())
    (hlaunch : cc.launch = .ok ())
    (hready : cc.readyInTime = false) :
    ∃ m', SICComponentManager.start_component m req =
        .ok (m', SICStartedComponentInformation ch) ∧
      m'.active_components = m.active_components ++
        [{ name := cc.name, output_channel := ch,
           _stop_event := false, _ready_event := false }] ∧
      m'.log = m.log ++
        ["ERROR Component " ++ cc.name ++ " refused to start within timeout"] := by
  refine ⟨{ m with
            active_components := m.active_components ++
              [{ name := cc.name, output_channel := ch,
                 _stop_event := false, _ready_event := false }]
            log := m.log ++
              ["ERROR Component " ++ cc.name ++ " refused to start within timeout"] },
         ?_, ?_, ?_⟩ <;>
    simp [SICComponentManager.start_component, hreg, hch, hcons, hlaunch, hready]

/-- C4 witness: the `slow` class on a concrete manager. -/
theorem claim4_witness :
    ∃ m', SICComponentManager.start_component
        (SICComponentManager.init "10.0.0.5" [slowClass])
        { component_name := "slow", log_level := 20, conf := none } =
        .ok (m', SICStartedComponentInformation "slow:10.0.0.5") ∧
      m'.active_components =
        (SICComponentManager.init "10.0.0.5" [slowClass]).active_components ++
        [{ name := "slow", output_channel := "slow:10.0.0.5",
           _stop_event := false, _ready_event := false }] ∧
      m'.log = (SICComponentManager.init "10.0.0.5" [slowClass]).log ++
        ["ERROR Component " ++ "slow" ++ " refused to start within timeout"] :=
  claim4_timeout_logged_instance_kept_reply_success
    (SICComponentManager.init "10.0.0.5" [slowClass])
    { component_name := "slow", log_level := 20, conf := none }
    slowClass "slow:10.0.0.5" rfl rfl rfl rfl rfl

/-! ## C5 — factory failure: NotStartedMessage, active list unchanged -/

/-- C5: when the component factory raises during construction, or
construction succeeds and the launch raises, `start_component` returns
a `SICNotStartedMessage` wrapping the raised cause and the active list
is unchanged (in fact the whole manager state is unchanged). -/
theorem claim5_factory_failure_not_started_list_unchanged
    (m : ManagerState) (req : SICStartComponentRequest) (cc : ComponentClass)
    (ch : String) (e : PyExc)
    (hreg : dictGet m.component_classes req.component_name = some cc)
    (hch : cc.get_output_channel m.ip = .ok ch)
    (hfail : cc.construct = .error e ∨
             (cc.construct = .ok () ∧ cc.launch = .error e)) :
    SICComponentManager.start_component m req = .ok (m, SICNotStartedMessage e) ∧
    ∀ m' r, SICComponentManager.start_component m req = .ok (m', r) →
      m'.active_components.length = m.active_components.length := by
  have hmain : SICComponentManager.start_component m req =
      .ok (m, SICNotStartedMessage e) := by
    rcases hfail with hcons | ⟨hcons, hlaunch⟩
    · simp [SICComponentManager.start_component, hreg, hch, hcons]
    · simp [SICComponentManager.start_component, hreg, hch, hcons, hlaunch]
  refine ⟨hmain, ?_⟩
  intro m' r hrun
  rw [hmain] at hrun
  cases (Prod.mk.injEq .. ▸ Except.ok.inj hrun).1
  rfl

/-- C5 witness: the `mic` class whose constructor raises `boom`. -/
theorem claim5_witness :
    SICComponentManager.start_component
        (SICComponentManager.init "10.0.0.5" [failCtorClass])
        { component_name := "mic", log_level := 20, conf := none } =
      .ok (SICComponentManager.init "10.0.0.5" [failCtorClass],
           SICNotStartedMessage { excName := "RuntimeError", msg := some "boom" }) ∧
    ∀ m' r, SICComponentManager.start_component
        (SICComponentManager.init "10.0.0.5" [failCtorClass])
        { component_name := "mic", log_level := 20, conf := none } = .ok (m', r) →
      m'.active_components.length =
        (SICComponentManager.init "10.0.0.5" [failCtorClass]).active_components.length :=
  claim5_factory_failure_not_started_list_unchanged
    (SICComponentManager.init "10.0.0.5" [failCtorClass])
    { component_name := "mic", log_level := 20, conf := none }
    failCtorClass "mic:10.0.0.5" { excName := "RuntimeError", msg := some "boom" }
    rfl rfl (Or.inl rfl)

/-! ## C2 — the singleton cache is shared across manager instances -/

/-- The empty reply-object heap. -/
def emptyHeap : Heap := ⟨[]⟩

/-- A second, distinct `SICSensorManager` instance registering the same
`echo` class (its own `ManagerState`, but — as in the source — the same
class-level `started_components` dictionary). -/
def mgrB : ManagerState :=
  { SICComponentManager.init "10.0.0.5" [echoClass] with log := ["manager B"] }

/-- Manager A's start request for `echo`, handled against the (empty)
class-level cache. -/
def c2run1 : Except PyExc (ManagerState × SICSensorManager.Cache × Heap × Nat) :=
  SICSensorManager.start_component mgrEcho [] emptyHeap reqEcho

/-- The class-level cache after manager A handled the request. -/
def c2cache1 : SICSensorManager.Cache :=
  match c2run1 with
  | .ok (_, cache, _, _) => cache
  | .error _ => []

/-- The reply-object heap after manager A handled the request. -/
def c2heap1 : Heap :=
  match c2run1 with
  | .ok (_, _, h, _) => h
  | .error _ => emptyHeap

/-- Manager B's subsequent start request for `echo`: it is handled
against the same class-level cache that A just wrote. -/
def c2run2 : Except PyExc (ManagerState × SICSensorManager.Cache × Heap × Nat) :=
  SICSensorManager.start_component mgrB c2cache1 c2heap1 reqEcho

/-- Manager B's state after its request. -/
def c2run2state : ManagerState :=
  match c2run2 with
  | .ok (mB1, _, _, _) => mB1
  | .error _ => mgrB

/-- The reply object manager B handed out. -/
def c2run2reply : ReplyObj :=
  match c2run2 with
  | .ok (_, _, h2, i) => h2.get i
  | .error _ => default

/-- C2 (counterexample): the claim says a start request handled by one
singleton manager never reads or writes another instance's cache.  On
the code `started_components` is a class attribute — one process-wide
dictionary — so after manager A handles a start for `echo`, the entry is
visible to the distinct instance B: B's own start for `echo` takes the
reuse path (it logs "Reusing existing component", launches nothing — its
active list stays empty — and serves a copy of A's cached reply) instead
of the fresh start the claim would require. -/
theorem claim2_counterexample :
    dictContains c2cache1 "echo" = true ∧
    c2run2state.active_components = [] ∧
    c2run2state.log = ["manager B", "INFO Reusing existing component echo"] ∧
    c2run2reply.kind = .started ∧
    c2run2reply.output_channel = some "echo:10.0.0.5" ∧
    c2run2reply.component_is_singleton = true :=
  ⟨rfl, rfl, rfl, rfl, rfl, rfl⟩

/-- C2 (amended): `started_components` is class-level state shared by
every `SICSensorManager` instance in the process.  Whatever instance
wrote a cache entry for a class name, any manager whose registry
resolves that name serves the cached entry on its next start request:
its own state changes only by the "reusing" log line, the shared cache
is left as is, nothing is launched, and the requester receives a fresh
copy of the cached reply object. -/
theorem claim2_cache_class_level_shared
    (mB : ManagerState) (cache : SICSensorManager.Cache) (h : Heap)
    (req : SICStartComponentRequest) (cc : ComponentClass) (rid : Nat)
    (hreg : dictGet mB.component_classes req.component_name = some cc)
    (hcache : dictGet cache cc.name = some rid) :
    SICSensorManager.start_component mB cache h req =
      .ok ({ mB with log := mB.log ++
               ["INFO Reusing existing component " ++ cc.name] },
           cache, (h.alloc (h.get rid)).1, (h.alloc (h.get rid)).2) := by
  simp [SICSensorManager.start_component, hreg, hcache]

/-- C2 witness: manager B reuses the entry written by manager A. -/
theorem claim2_witness :
    SICSensorManager.start_component mgrB c2cache1 c2heap1 reqEcho =
      .ok ({ mgrB with log := mgrB.log ++
               ["INFO Reusing existing component " ++ "echo"] },
           c2cache1, (c2heap1.alloc (c2heap1.get 0)).1,
           (c2heap1.alloc (c2heap1.get 0)).2) :=
  claim2_cache_class_level_shared mgrB c2cache1 c2heap1 reqEcho echoClass 0
    rfl rfl

/-! ## C3 — the singleton path caches failure replies too -/

/-- A singleton manager registering the `mic` class, whose constructor
raises. -/
def mgrMic : ManagerState := SICComponentManager.init "10.0.0.5" [failCtorClass]

/-- A start request for `mic`. -/
def reqMic : SICStartComponentRequest :=
  { component_name := "mic", log_level := 20, conf := none }

/-- First start request for `mic` on the singleton manager: the base
`start_component` catches the constructor failure and returns a
`SICNotStartedMessage`. -/
def c3run1 : Except PyExc (ManagerState × SICSensorManager.Cache × Heap × Nat) :=
  SICSensorManager.start_component mgrMic [] emptyHeap reqMic

/-- Manager state after the first `mic` request. -/
def c3state1 : ManagerState :=
  match c3run1 with
  | .ok (m1, _, _, _) => m1
  | .error _ => mgrMic

/-- Cache after the first `mic` request. -/
def c3cache1 : SICSensorManager.Cache :=
  match c3run1 with
  | .ok (_, cache, _, _) => cache
  | .error _ => []

/-- Heap after the first `mic` request. -/
def c3heap1 : Heap :=
  match c3run1 with
  | .ok (_, _, h, _) => h
  | .error _ => emptyHeap

/-- Second start request for `mic`, handled from the state the first
one left behind. -/
def c3run2 : Except PyExc (ManagerState × SICSensorManager.Cache × Heap × Nat) :=
  SICSensorManager.start_component c3state1 c3cache1 c3heap1 reqMic

/-- Manager state after the second `mic` request. -/
def c3state2 : ManagerState :=
  match c3run2 with
  | .ok (m2, _, _, _) => m2
  | .error _ => c3state1

/-- The reply object served for the second `mic` request. -/
def c3reply2 : ReplyObj :=
  match c3run2 with
  | .ok (_, _, h2, i) => h2.get i
  | .error _ => default

/-- C3 (code behaviour at the failing input): the claim — matching the
spec's "on success, … store it in the cache" — says a failure reply is
not cached, so a second request retries a fresh start.  The code stores
whatever reply the base `start_component` returned: after the first
`mic` request the cache maps `mic` to the `SICNotStartedMessage`
(even with its `component_is_singleton` flag set true), and the second
request logs "Reusing existing component" and is served a copy of the
cached failure instead of attempting a fresh start. -/
theorem claim3_failure_reply_is_cached_and_served :
    dictGet c3cache1 "mic" = some 0 ∧
    (c3heap1.get 0).kind = .notStarted ∧
    (c3heap1.get 0).message =
      some { excName := "RuntimeError", msg := some "boom" } ∧
    (c3heap1.get 0).component_is_singleton = true ∧
    c3reply2.kind = .notStarted ∧
    c3reply2.message = some { excName := "RuntimeError", msg := some "boom" } ∧
    c3state2.log = ["INFO Starting new component mic",
                    "INFO Reusing existing component mic"] ∧
    c3state2.active_components = [] :=
  ⟨rfl, rfl, rfl, rfl, rfl, rfl, rfl, rfl⟩

/-! ## C6 — singleton replies: same channel, distinct reply objects -/

/-- C6: on a singleton manager, when a class (not yet cached) starts
successfully, two sequential start requests for it yield replies with
the same `output_channel` and `component_is_singleton = true`, and the
two reply objects handed out, as well as the cached object, are three
pairwise distinct objects: mutating the per-request `_request_id`
attribute on either handed-out reply changes neither the other reply
nor the cached entry. -/
theorem claim6_singleton_replies_same_channel_distinct_objects
    (m : ManagerState) (cache : SICSensorManager.Cache)
    (req : SICStartComponentRequest) (cc : ComponentClass) (ch : String)
    (m1 m2 : ManagerState) (c1 c2 : SICSensorManager.Cache) (h1 h2 : Heap)
    (i1 i2 : Nat)
    (hreg : dictGet m.component_classes req.component_name = some cc)
    (hmiss : dictGet cache cc.name = none)
    (hch : cc.get_output_channel m.ip = .ok ch)
    (hcons : cc.construct = .ok ())
    (hlaunch : cc.launch = .ok ())
    (hrun1 : SICSensorManager.start_component m cache emptyHeap req =
      .ok (m1, c1, h1, i1))
    (hrun2 : SICSensorManager.start_component m1 c1 h1 req =
      .ok (m2, c2, h2, i2)) :
    (h2.get i1).output_channel = some ch ∧
    (h2.get i2).output_channel = some ch ∧
    (h2.get i1).component_is_singleton = true ∧
    (h2.get i2).component_is_singleton = true ∧
    i1 ≠ i2 ∧
    (∀ cid, dictGet c2 cc.name = some cid →
      i1 ≠ cid ∧ i2 ≠ cid ∧
      ∀ rid,
        (h2.set i1 { h2.get i1 with _request_id := some rid }).get i2 =
          h2.get i2 ∧
        (h2.set i1 { h2.get i1 with _request_id := some rid }).get cid =
          h2.get cid ∧
        (h2.set i2 { h2.get i2 with _request_id := some rid }).get i1 =
          h2.get i1 ∧
        (h2.set i2 { h2.get i2 with _request_id := some rid }).get cid =
          h2.get cid) := by
  cases hready : cc.readyInTime
  all_goals
    simp [SICSensorManager.start_component, SICComponentManager.start_component,
      hreg, hmiss, hch, hcons, hlaunch, hready, emptyHeap, Heap.alloc, Heap.get,
      SICStartedComponentInformation, Except.ok.injEq, Prod.mk.injEq] at hrun1
  all_goals
    obtain ⟨hm1, hc1, hh1, hi1⟩ := hrun1
    subst hm1
    subst hc1
    subst hh1
    subst hi1
    simp [SICSensorManager.start_component, hreg, dictGet_dictInsert_self,
      Heap.alloc, Heap.get, Except.ok.injEq, Prod.mk.injEq] at hrun2
    obtain ⟨hm2, hc2, hh2, hi2⟩ := hrun2
    subst hm2
    subst hc2
    subst hh2
    subst hi2
    refine ⟨by simp [Heap.get], by simp [Heap.get], by simp [Heap.get],
      by simp [Heap.get], by decide, ?_⟩
    intro cid hcid
    rw [dictGet_dictInsert_self] at hcid
    obtain rfl : (0 : Nat) = cid := Option.some.inj hcid
    refine ⟨by decide, by decide, ?_⟩
    intro rid
    refine ⟨?_, ?_, ?_, ?_⟩ <;> simp [Heap.set, Heap.get]

/-- The reply object cached for `echo` on the singleton manager. -/
def c6reply : ReplyObj :=
  { kind := .started, output_channel := some "echo:10.0.0.5",
    component_is_singleton := true }

/-- State after the first singleton `echo` start. -/
def c6m1 : ManagerState :=
  { mgrEcho with
    active_components := [echoInst]
    log := ["INFO Starting new component echo"] }

/-- Cache after the first singleton `echo` start. -/
def c6c1 : SICSensorManager.Cache := [("echo", 0)]

/-- Heap after the first singleton `echo` start: the cached object and
the first handed-out copy. -/
def c6h1 : Heap := ⟨[c6reply, c6reply]⟩

/-- State after the second singleton `echo` start. -/
def c6m2 : ManagerState :=
  { c6m1 with log := c6m1.log ++ ["INFO Reusing existing component echo"] }

/-- Heap after the second singleton `echo` start: the cached object and
the two handed-out copies. -/
def c6h2 : Heap := ⟨[c6reply, c6reply, c6reply]⟩

/-- C6 witness: the theorem instantiated on two sequential `echo`
starts on a fresh singleton manager. -/
theorem claim6_witness :
    (c6h2.get 1).output_channel = some "echo:10.0.0.5" ∧
    (c6h2.get 2).output_channel = some "echo:10.0.0.5" ∧
    (c6h2.get 1).component_is_singleton = true ∧
    (c6h2.get 2).component_is_singleton = true ∧
    (1 : Nat) ≠ 2 ∧
    (∀ cid, dictGet c6c1 "echo" = some cid →
      (1 : Nat) ≠ cid ∧ (2 : Nat) ≠ cid ∧
      ∀ rid,
        (c6h2.set 1 { c6h2.get 1 with _request_id := some rid }).get 2 =
          c6h2.get 2 ∧
        (c6h2.set 1 { c6h2.get 1 with _request_id := some rid }).get cid =
          c6h2.get cid ∧
        (c6h2.set 2 { c6h2.get 2 with _request_id := some rid }).get 1 =
          c6h2.get 1 ∧
        (c6h2.set 2 { c6h2.get 2 with _request_id := some rid }).get cid =
          c6h2.get cid) :=
  claim6_singleton_replies_same_channel_distinct_objects mgrEcho [] reqEcho
    echoClass "echo:10.0.0.5" c6m1 c6m2 c6c1 c6c1 c6h1 c6h2 1 2
    rfl rfl rfl rfl rfl (by rfl) (by rfl)
